import Mathlib

/-!
Shallow embedding of `unity_mcp_client/client.py` (class `UnityMCP`), a JSON
command client for a Unity MCP server, together with proofs about the
properties its specification states.

Conventions of the embedding:
* Python values that can flow into a command envelope are modelled by
  `PyAtom`/`PyValue`; the repository only ever places scalars and flat
  tuples/lists of scalars into envelopes.
* Strings are handled at the `List Char` level (Python strings index by
  character, as does `String.data`).
* The two regular expressions of `_format_vector3` are modelled by direct,
  executable matchers (`reMatchXYZ`, `findNums`) whose shape follows the
  Python patterns `^-?\d*\.?\d*,-?\d*\.?\d*,-?\d*\.?\d*$` and `-?\d+\.?\d*`.
* The HTTP transport and JSON decoding are external effects, modelled by an
  explicit environment `Env`; raised Python exceptions are modelled by
  `Except PyExc`.
-/

/-- A scalar Python value (the repository only sends scalars and flat
sequences of scalars). JSON/Python numbers are modelled as integers; none of
the client's logic does numeric arithmetic. -/
inductive PyAtom where
  | pyNone
  | pyBool (b : Bool)
  | pyInt (n : Int)
  | pyStr (s : String)
deriving DecidableEq

/-- A Python value as the client manipulates it: a scalar, or a flat tuple or
list of scalars (the argument forms `set_component_property` documents). -/
inductive PyValue where
  | atom (a : PyAtom)
  | pyTuple (xs : List PyAtom)
  | pyList (xs : List PyAtom)
deriving DecidableEq

/-- Python `str()` of a scalar. -/
def pyStrAtom : PyAtom → String
  | .pyNone => "None"
  | .pyBool true => "True"
  | .pyBool false => "False"
  | .pyInt n => toString n
  | .pyStr s => s

/-- Python `repr()` of a scalar, as used when rendering elements of a tuple or
list. String escaping and quote selection are not modelled beyond the plain
single-quote form; the repository never renders container values whose string
elements need escapes. -/
def pyReprAtom : PyAtom → String
  | .pyStr s => "\x27" ++ s ++ "\x27"
  | a => pyStrAtom a

/-- `", "`-joined `repr`s, as inside Python's rendering of a tuple or list. -/
def joinReprs : List PyAtom → String
  | [] => ""
  | [x] => pyReprAtom x
  | x :: xs => pyReprAtom x ++ ", " ++ joinReprs xs

/-- Python `str()` of a `PyValue`. -/
def pyStr : PyValue → String
  | .atom a => pyStrAtom a
  | .pyTuple [x] => "(" ++ pyReprAtom x ++ ",)"
  | .pyTuple xs => "(" ++ joinReprs xs ++ ")"
  | .pyList xs => "[" ++ joinReprs xs ++ "]"

/-- Python `str.lower` for the ASCII letters; all property and component
names the protocol uses are ASCII, and non-ASCII characters pass through
unchanged here as they are irrelevant to the protocol vocabulary. -/
def lowerChar (c : Char) : Char :=
  match c with
  | 'A' => 'a' | 'B' => 'b' | 'C' => 'c' | 'D' => 'd' | 'E' => 'e'
  | 'F' => 'f' | 'G' => 'g' | 'H' => 'h' | 'I' => 'i' | 'J' => 'j'
  | 'K' => 'k' | 'L' => 'l' | 'M' => 'm' | 'N' => 'n' | 'O' => 'o'
  | 'P' => 'p' | 'Q' => 'q' | 'R' => 'r' | 'S' => 's' | 'T' => 't'
  | 'U' => 'u' | 'V' => 'v' | 'W' => 'w' | 'X' => 'x' | 'Y' => 'y'
  | 'Z' => 'z' | c => c

/-- Python `str.lower` (ASCII; see `lowerChar`). -/
def lowerStr (s : String) : String := ⟨s.data.map lowerChar⟩

/-- Python `str.endswith suffix`. -/
def pyEndsWith (s suffixStr : String) : Bool := suffixStr.data.isSuffixOf s.data

/-- Python slice `s[:-4]`: the string minus its last four characters. -/
def sliceDropLast4 (s : String) : String := ⟨s.data.take (s.data.length - 4)⟩

/-- Python `host.rstrip("/")`: remove every trailing `'/'`. -/
def rstripSlashes (s : String) : String :=
  ⟨(s.data.reverse.dropWhile (fun c => c == '/')).reverse⟩

/-! ### The two regular expressions of `_format_vector3` -/

/-- Longest prefix of digits and the remainder (the greedy `\d*` / `\d+`). -/
def spanDigits : List Char → List Char × List Char
  | [] => ([], [])
  | c :: cs =>
    if c.isDigit then
      let r := spanDigits cs
      (c :: r.1, r.2)
    else ([], c :: cs)

/-- The greedy match of `\d+\.?\d*` at the head of the input: at least one
digit, then an optional dot followed by more digits. Returns the matched
characters and the rest, or `none` when no match starts here. -/
def matchTail (cs : List Char) : Option (List Char × List Char) :=
  match spanDigits cs with
  | ([], _) => none
  | (d :: ds, '.' :: rest2) =>
    some (d :: ds ++ '.' :: (spanDigits rest2).1, (spanDigits rest2).2)
  | (d :: ds, rest) => some (d :: ds, rest)

/-- The greedy match of `-?\d+\.?\d*` at the head of the input (the scanning
pattern of `re.findall` in `_format_vector3`). A leading `'-'` is consumed
only when digits follow, exactly as the backtracking `-?` behaves. -/
def matchNumAt : List Char → Option (List Char × List Char)
  | '-' :: cs =>
    match matchTail cs with
    | some (t, r) => some ('-' :: t, r)
    | none => none
  | cs => matchTail cs

/-- Scanner for `re.findall(r'-?\d+\.?\d*', ·)`, structured with an explicit
fuel so that it is structurally recursive and evaluates inside the kernel.
One unit of fuel is spent per character position, so fuel equal to the input
length never runs out; `findNums_match`/`findNums_skip`/`findNums_nil` below
prove that `findNums` satisfies exactly the intended recursion. -/
def findNumsAux : Nat → List Char → List (List Char)
  | 0, _ => []
  | _ + 1, [] => []
  | fuel + 1, c :: cs =>
    match matchNumAt (c :: cs) with
    | some (t, r) => t :: findNumsAux fuel r
    | none => findNumsAux fuel cs

/-- `re.findall(r'-?\d+\.?\d*', ·)`: scan left to right; at each position
either take the (greedy, leftmost) match and continue after it, or advance
one character. -/
def findNums (l : List Char) : List (List Char) := findNumsAux l.length l

/-- All characters are digits (`\d*` against a whole string). -/
def allDigits (l : List Char) : Bool := l.all Char.isDigit

/-- `\d*\.?\d*` matched against the whole list: digits, at most one dot. -/
def digitsDotDigits : List Char → Bool
  | [] => true
  | c :: cs =>
    if c.isDigit then digitsDotDigits cs
    else if c = '.' then allDigits cs
    else false

/-- `-?\d*\.?\d*` matched against the whole list (one component of the strict
`x,y,z` pattern; note every part is optional, so the empty list matches). -/
def compMatch : List Char → Bool
  | '-' :: cs => digitsDotDigits cs
  | cs => digitsDotDigits cs

/-- Split on the literal `','`, like Python `str.split(",")`. -/
def splitOnComma : List Char → List (List Char)
  | [] => [[]]
  | ',' :: cs => [] :: splitOnComma cs
  | c :: cs =>
    match splitOnComma cs with
    | p :: ps => (c :: p) :: ps
    | [] => [[c]]

/-- Whole-string match of `^-?\d*\.?\d*,-?\d*\.?\d*,-?\d*\.?\d*$`. Since a
component can never contain a comma, the pattern matches exactly the strings
with precisely two commas whose three comma-separated parts each match
`-?\d*\.?\d*`. -/
def strictCore (l : List Char) : Bool :=
  match splitOnComma l with
  | [a, b, c] => compMatch a && compMatch b && compMatch c
  | _ => false

/-- Remove one trailing newline, if present. -/
def dropTrailingNewline (l : List Char) : List Char :=
  match l.reverse with
  | '\n' :: rest => rest.reverse
  | _ => l

/-- `re.match(r'^-?\d*\.?\d*,-?\d*\.?\d*,-?\d*\.?\d*$', ·)` as a Boolean:
Python's `$` anchor also matches just before a single trailing newline, so
the pattern matches either the whole string or the whole string minus one
trailing `'\n'`. -/
def reMatchXYZ (l : List Char) : Bool :=
  strictCore l || strictCore (dropTrailingNewline l)

/-! ### `UnityMCP._format_vector3` -/

/-- `UnityMCP._format_vector3`: format a value as the `"x,y,z"` string Unity
expects. A string already matching the strict pattern passes through; other
strings are scanned for numeric substrings and the first three are joined;
a tuple or list of at least three elements has its first three elements
joined; everything else falls back to Python `str(value)`. -/
def format_vector3 (value : PyValue) : String :=
  match value with
  | .atom (.pyStr s) =>
    if reMatchXYZ s.data then s
    else
      match findNums s.data with
      | m0 :: m1 :: m2 :: _ => ⟨m0⟩ ++ "," ++ ⟨m1⟩ ++ "," ++ ⟨m2⟩
      | _ => pyStr value
  | .pyTuple (x0 :: x1 :: x2 :: _) =>
    pyStrAtom x0 ++ "," ++ pyStrAtom x1 ++ "," ++ pyStrAtom x2
  | .pyList (x0 :: x1 :: x2 :: _) =>
    pyStrAtom x0 ++ "," ++ pyStrAtom x1 ++ "," ++ pyStrAtom x2
  | v => pyStr v

/-! ### JSON responses, exceptions, envelopes and the transport environment -/

/-- A JSON-decoded server response value. Numbers are modelled as integers;
the client never computes with response numbers, it only tests truthiness. -/
inductive JValue where
  | jNull
  | jBool (b : Bool)
  | jNum (n : Int)
  | jStr (s : String)
  | jArr (xs : List JValue)
  | jObj (fields : List (String × JValue))

/-- Python truthiness of a JSON-decoded value. -/
def JValue.truthy : JValue → Bool
  | .jNull => false
  | .jBool b => b
  | .jNum n => n != 0
  | .jStr s => s != ""
  | .jArr [] => false
  | .jArr (_ :: _) => true
  | .jObj [] => false
  | .jObj (_ :: _) => true

/-- Truthiness of the result of Python `dict.get` (absent key gives `None`,
which is falsy). -/
def truthyOpt : Option JValue → Bool
  | none => false
  | some v => v.truthy

/-- The Python exceptions the client can raise: the uniform
`RuntimeError(f"Request to MCP server failed: {e}")` of `_send_request`, and
the `AttributeError` that `.get` raises on a non-dict response. -/
inductive PyExc where
  | runtimeError (msg : String)
  | attributeError
deriving DecidableEq

/-- Python `response.get(key)`: the value stored at `key`, or `None` when the
key is absent; calling `.get` on a non-dict raises `AttributeError`. `jObj`
field lists represent dicts, so keys are distinct and lookup takes the first
hit. -/
def JValue.get (v : JValue) (k : String) : Except PyExc (Option JValue) :=
  match v with
  | .jObj fields => .ok ((fields.find? (fun kv => kv.1 == k)).map (fun kv => kv.2))
  | _ => .error .attributeError

/-- A command envelope `{"command": ..., "parameters": {...}}`. Parameters
are an insertion-ordered association list, as a Python dict is. -/
structure Payload where
  command : String
  parameters : List (String × PyValue)
deriving DecidableEq

/-- The association-list lookup of one envelope parameter. -/
def paramOf (p : Payload) (k : String) : Option PyValue :=
  (p.parameters.find? (fun kv => kv.1 == k)).map (fun kv => kv.2)

/-- What the HTTP transport produced for one POST: a response (with final
status code and decoded body text), or a raised
`requests.exceptions.RequestException` (connection error, timeout, ...). -/
structure HttpResponse where
  status : Nat
  text : String
deriving DecidableEq

/-- Outcome of `requests.post`. -/
inductive HttpOutcome where
  | success (resp : HttpResponse)
  | exn (msg : String)

/-- The external world `_send_request` interacts with: the transport, the
JSON decoder `resp.json()` (returning the decoded value or the message of the
`ValueError` it raises), and the rendering of the `HTTPError` that
`raise_for_status` raises for an error status. -/
structure Env where
  http : String → Payload → HttpOutcome
  parseJson : String → Except String JValue
  httpErrorText : Nat → String

/-- The client object: its only attribute is the endpoint string `host`. -/
structure UnityMCP where
  host : String
deriving DecidableEq

/-- `UnityMCP.__init__`: store the base URL with trailing slashes removed. -/
def UnityMCP.init (host : String) : UnityMCP := { host := rstripSlashes host }

/-- `UnityMCP._send_request`: POST the payload to `f"{self.host}/"`, call
`resp.raise_for_status()` — which, per the requests library, raises
`HTTPError` exactly for statuses 400–599 — then return the decoded body, or
`{}` for an empty body. A `RequestException` or a `ValueError` from decoding
is re-raised as the uniform `RuntimeError`. -/
def UnityMCP.send_request (c : UnityMCP) (env : Env) (payload : Payload) :
    Except PyExc JValue :=
  let url := c.host ++ "/"
  match env.http url payload with
  | .exn e => .error (.runtimeError ("Request to MCP server failed: " ++ e))
  | .success resp =>
    if 400 ≤ resp.status ∧ resp.status < 600 then
      .error (.runtimeError ("Request to MCP server failed: " ++ env.httpErrorText resp.status))
    else if resp.text != "" then
      match env.parseJson resp.text with
      | .ok v => .ok v
      | .error e => .error (.runtimeError ("Request to MCP server failed: " ++ e))
    else .ok (.jObj [])

/-! ### Envelope construction for each command -/

/-- The envelope `create_gameobject` builds: `objectName` always,
`parentName` only when the `parent_name` argument is truthy (`if parent_name:`
drops both `None` and the empty string). -/
def create_gameobject_payload (object_name : String) (parent_name : Option String) : Payload :=
  { command := "create_gameobject",
    parameters :=
      match parent_name with
      | some p =>
        if p = "" then [("objectName", .atom (.pyStr object_name))]
        else [("objectName", .atom (.pyStr object_name)), ("parentName", .atom (.pyStr p))]
      | none => [("objectName", .atom (.pyStr object_name))] }

/-- Python truthiness of the optional `parent_name: str = None` argument. -/
def pyTruthyStrOpt : Option String → Bool
  | none => false
  | some s => s != ""

/-- The `add_component` envelope. -/
def add_component_payload (gameobject_name component_type_name : String) : Payload :=
  { command := "add_component",
    parameters := [("gameObjectName", .atom (.pyStr gameobject_name)),
                   ("componentTypeName", .atom (.pyStr component_type_name))] }

/-- The `create_script_asset` envelope (`folderPath` only when truthy). -/
def create_script_asset_payload (script_name script_content : String)
    (folder_path : Option String) : Payload :=
  { command := "create_script_asset",
    parameters :=
      match folder_path with
      | some p =>
        if p = "" then [("scriptName", .atom (.pyStr script_name)),
                        ("scriptContent", .atom (.pyStr script_content))]
        else [("scriptName", .atom (.pyStr script_name)),
              ("scriptContent", .atom (.pyStr script_content)),
              ("folderPath", .atom (.pyStr p))]
      | none => [("scriptName", .atom (.pyStr script_name)),
                 ("scriptContent", .atom (.pyStr script_content))] }

/-- The `"scale"`-to-`"localScale"` aliasing of `set_component_property`:
`if component_type == "Transform" and property_name.lower() == "scale"`. -/
def aliasPropertyName (component_type property_name : String) : String :=
  if component_type = "Transform" ∧ lowerStr property_name = "scale" then "localScale"
  else property_name

/-- The `formatted_value` computation of `set_component_property`, applied to
the already-aliased property name: coerce through `_format_vector3` when the
component is `"Transform"` and the lowered property name is in the literal
list (whose last entry `"eulerAngles"` contains an upper-case letter), or
when the value is a tuple/list of exactly three elements. -/
def scpFormattedValue (component_type aliased_name : String) (value : PyValue) : PyValue :=
  if component_type = "Transform" ∧
      lowerStr aliased_name ∈ ["position", "localscale", "rotation", "eulerAngles"] then
    .atom (.pyStr (format_vector3 value))
  else
    match value with
    | .pyTuple xs => if xs.length = 3 then .atom (.pyStr (format_vector3 value)) else value
    | .pyList xs => if xs.length = 3 then .atom (.pyStr (format_vector3 value)) else value
    | v => v

/-- The `set_component_property` envelope, after aliasing and value coercion. -/
def set_component_property_payload (gameobject_name component_type property_name : String)
    (value : PyValue) : Payload :=
  let pn := aliasPropertyName component_type property_name
  { command := "set_component_property",
    parameters := [("gameObjectName", .atom (.pyStr gameobject_name)),
                   ("componentType", .atom (.pyStr component_type)),
                   ("propertyName", .atom (.pyStr pn)),
                   ("value", scpFormattedValue component_type pn value)] }

/-- The `instantiate_prefab` envelope. -/
def instantiate_prefab_payload (prefab_path : String) : Payload :=
  { command := "instantiate_prefab",
    parameters := [("prefabPath", .atom (.pyStr prefab_path))] }

/-- The `find_gameobjects_by_tag` envelope. -/
def find_gameobjects_by_tag_payload (tag : String) : Payload :=
  { command := "find_gameobjects_by_tag", parameters := [("tag", .atom (.pyStr tag))] }

/-- The `get_all_components` envelope. -/
def get_all_components_payload (gameobject_name : String) : Payload :=
  { command := "get_all_components",
    parameters := [("gameObjectName", .atom (.pyStr gameobject_name))] }

/-- The `remove_component` envelope. -/
def remove_component_payload (gameobject_name component_name : String) : Payload :=
  { command := "remove_component",
    parameters := [("gameObjectName", .atom (.pyStr gameobject_name)),
                   ("componentName", .atom (.pyStr component_name))] }

/-- The `delete_gameobject` envelope (this one names its parameter `name`). -/
def delete_gameobject_payload (gameobject_name : String) : Payload :=
  { command := "delete_gameobject", parameters := [("name", .atom (.pyStr gameobject_name))] }

/-! ### The public operations -/

/-- The observable behaviour of one public method call: the returned value or
raised exception, the client object afterwards (methods never assign to
`self`, so this is always the argument client), and the transcript of the
envelopes `_send_request` POSTed, in order. -/
structure CallResult where
  result : Except PyExc JValue
  client : UnityMCP
  sent : List Payload

/-- `UnityMCP.create_gameobject`. -/
def UnityMCP.create_gameobject (c : UnityMCP) (env : Env) (object_name : String)
    (parent_name : Option String) : CallResult :=
  let payload := create_gameobject_payload object_name parent_name
  { result := c.send_request env payload, client := c, sent := [payload] }

/-- `UnityMCP.get_all_scenes`. -/
def UnityMCP.get_all_scenes (c : UnityMCP) (env : Env) : CallResult :=
  let payload : Payload := { command := "get_all_scenes", parameters := [] }
  { result := c.send_request env payload, client := c, sent := [payload] }

/-- `UnityMCP.get_all_prefabs`. -/
def UnityMCP.get_all_prefabs (c : UnityMCP) (env : Env) : CallResult :=
  let payload : Payload := { command := "get_all_prefabs", parameters := [] }
  { result := c.send_request env payload, client := c, sent := [payload] }

/-- `UnityMCP.get_all_gameobjects_in_scene`. -/
def UnityMCP.get_all_gameobjects_in_scene (c : UnityMCP) (env : Env) : CallResult :=
  let payload : Payload := { command := "get_all_gameobjects_in_scene", parameters := [] }
  { result := c.send_request env payload, client := c, sent := [payload] }

/-- `UnityMCP.create_script_asset`. -/
def UnityMCP.create_script_asset (c : UnityMCP) (env : Env)
    (script_name script_content : String) (folder_path : Option String) : CallResult :=
  let payload := create_script_asset_payload script_name script_content folder_path
  { result := c.send_request env payload, client := c, sent := [payload] }

/-- `UnityMCP.set_component_property`. -/
def UnityMCP.set_component_property (c : UnityMCP) (env : Env)
    (gameobject_name component_type property_name : String) (value : PyValue) : CallResult :=
  let payload := set_component_property_payload gameobject_name component_type property_name value
  { result := c.send_request env payload, client := c, sent := [payload] }

/-- `UnityMCP.instantiate_prefab`. -/
def UnityMCP.instantiate_prefab (c : UnityMCP) (env : Env) (prefab_path : String) : CallResult :=
  let payload := instantiate_prefab_payload prefab_path
  { result := c.send_request env payload, client := c, sent := [payload] }

/-- `UnityMCP.find_gameobjects_by_tag`. -/
def UnityMCP.find_gameobjects_by_tag (c : UnityMCP) (env : Env) (tag : String) : CallResult :=
  let payload := find_gameobjects_by_tag_payload tag
  { result := c.send_request env payload, client := c, sent := [payload] }

/-- `UnityMCP.get_all_components`. -/
def UnityMCP.get_all_components (c : UnityMCP) (env : Env) (gameobject_name : String) :
    CallResult :=
  let payload := get_all_components_payload gameobject_name
  { result := c.send_request env payload, client := c, sent := [payload] }

/-- `UnityMCP.remove_component`. -/
def UnityMCP.remove_component (c : UnityMCP) (env : Env)
    (gameobject_name component_name : String) : CallResult :=
  let payload := remove_component_payload gameobject_name component_name
  { result := c.send_request env payload, client := c, sent := [payload] }

/-- `UnityMCP.delete_gameobject`. -/
def UnityMCP.delete_gameobject (c : UnityMCP) (env : Env) (gameobject_name : String) :
    CallResult :=
  let payload := delete_gameobject_payload gameobject_name
  { result := c.send_request env payload, client := c, sent := [payload] }

/-- `UnityMCP.add_component_to_gameobject`: for a component type name ending
in `"Mesh"`, run the three-step composite — add `MeshFilter`, add
`MeshRenderer`, then set `MeshFilter.mesh` to the built-in asset reference
built from the suffix-stripped, lowercased type name — short-circuiting after
the first step whose response has no truthy `success` field; otherwise send a
single `add_component` envelope. -/
def UnityMCP.add_component_to_gameobject (c : UnityMCP) (env : Env)
    (gameobject_name component_type_name : String) : CallResult :=
  if pyEndsWith component_type_name "Mesh" then
    let p1 := add_component_payload gameobject_name "MeshFilter"
    match c.send_request env p1 with
    | .error e => { result := .error e, client := c, sent := [p1] }
    | .ok r1 =>
      match r1.get "success" with
      | .error e => { result := .error e, client := c, sent := [p1] }
      | .ok s1 =>
        if truthyOpt s1 then
          let p2 := add_component_payload gameobject_name "MeshRenderer"
          match c.send_request env p2 with
          | .error e => { result := .error e, client := c, sent := [p1, p2] }
          | .ok r2 =>
            match r2.get "success" with
            | .error e => { result := .error e, client := c, sent := [p1, p2] }
            | .ok s2 =>
              if truthyOpt s2 then
                let mesh_type := lowerStr (sliceDropLast4 component_type_name)
                let step3 := c.set_component_property env gameobject_name "MeshFilter" "mesh"
                  (.atom (.pyStr ("UnityEngine.Mesh, UnityEngine.CoreModule:UnityEngine." ++ mesh_type)))
                { result := step3.result, client := step3.client, sent := [p1, p2] ++ step3.sent }
              else { result := .ok r2, client := c, sent := [p1, p2] }
        else { result := .ok r1, client := c, sent := [p1] }
  else
    let payload := add_component_payload gameobject_name component_type_name
    { result := c.send_request env payload, client := c, sent := [payload] }

/-- A test transport: every POST succeeds with status 200 and empty body. -/
def envEmptyOk : Env :=
  { http := fun _ _ => .success { status := 200, text := "" },
    parseJson := fun _ => .error "invalid json",
    httpErrorText := fun s => toString s }

/-- A test transport: every POST succeeds with status 200 and body `"ok"`,
which decodes to `{"success": true}`. -/
def envAllOk : Env :=
  { http := fun _ _ => .success { status := 200, text := "ok" },
    parseJson := fun b =>
      if b = "ok" then .ok (.jObj [("success", .jBool true)]) else .error "invalid json",
    httpErrorText := fun s => toString s }

/-- A test transport where the `MeshFilter` step reports a logical failure
and every other POST reports success. -/
def envMeshFilterFails : Env :=
  { http := fun _ p =>
      if p = add_component_payload "Player" "MeshFilter" then .success { status := 200, text := "no" }
      else .success { status := 200, text := "ok" },
    parseJson := fun b =>
      if b = "ok" then .ok (.jObj [("success", .jBool true)])
      else .ok (.jObj [("success", .jBool false), ("error", .jStr "add failed")]),
    httpErrorText := fun s => toString s }

/-- A test transport answering `304 Not Modified` with an empty body. -/
def env304 : Env :=
  { http := fun _ _ => .success { status := 304, text := "" },
    parseJson := fun _ => .error "invalid json",
    httpErrorText := fun s => toString s }

/-! ### Proofs -/

theorem spanDigits_append (l : List Char) :
    (spanDigits l).1 ++ (spanDigits l).2 = l := by
  induction l with
  | nil => rfl
  | cons c cs ih =>
    by_cases h : c.isDigit = true <;> simp [spanDigits, h, ih]

theorem matchTail_length {cs t r} (h : matchTail cs = some (t, r)) :
    r.length < cs.length := by
  have hs := congrArg List.length (spanDigits_append cs)
  unfold matchTail at h
  split at h
  · exact absurd h (by simp)
  · next d ds rest2 heq =>
    have hs2 := congrArg List.length (spanDigits_append rest2)
    rw [heq] at hs
    cases h
    simp at hs hs2
    omega
  · next x d ds rest hno heq =>
    rw [heq] at hs
    cases h
    simp at hs
    omega

theorem matchNumAt_length {l t r} (h : matchNumAt l = some (t, r)) :
    r.length < l.length := by
  unfold matchNumAt at h
  split at h
  · next cs =>
    split at h
    · next t0 r0 heq =>
      cases h
      have := matchTail_length heq
      simp
      omega
    · exact absurd h (by simp)
  · next cs _ => exact matchTail_length h

theorem findNumsAux_congr :
    ∀ (fuel fuel' : Nat) (l : List Char), l.length ≤ fuel → l.length ≤ fuel' →
      findNumsAux fuel l = findNumsAux fuel' l := by
  intro fuel
  induction fuel with
  | zero =>
    intro fuel' l h1 _
    have hl : l = [] := List.eq_nil_of_length_eq_zero (Nat.le_zero.mp h1)
    subst hl
    cases fuel' <;> rfl
  | succ n ih =>
    intro fuel' l h1 h2
    cases l with
    | nil => cases fuel' <;> rfl
    | cons c cs =>
      cases fuel' with
      | zero => simp at h2
      | succ m =>
        simp only [findNumsAux]
        cases hma : matchNumAt (c :: cs) with
        | some tr =>
          obtain ⟨t, r⟩ := tr
          have hr := matchNumAt_length hma
          simp only [List.length_cons] at h1 h2 hr
          exact congrArg (t :: ·) (ih m r (by omega) (by omega))
        | none =>
          simp only [List.length_cons] at h1 h2
          exact ih m cs (by omega) (by omega)

/-- When a number match starts at the head, the scanner takes it and
continues after it. -/
theorem findNums_match {l t r : List Char} (h : matchNumAt l = some (t, r)) :
    findNums l = t :: findNums r := by
  cases l with
  | nil => simp [matchNumAt, matchTail, spanDigits] at h
  | cons c cs =>
    unfold findNums
    simp only [List.length_cons, findNumsAux, h]
    have hr := matchNumAt_length h
    simp only [List.length_cons] at hr
    exact congrArg (t :: ·) (findNumsAux_congr cs.length r.length r (by omega) (by omega))

/-- When no number match starts at the head, the scanner advances one
character. -/
theorem findNums_skip {c : Char} {cs : List Char} (h : matchNumAt (c :: cs) = none) :
    findNums (c :: cs) = findNums cs := by
  unfold findNums
  simp only [List.length_cons, findNumsAux, h]

theorem findNums_nil : findNums [] = [] := rfl

/-! ### Helper lemmas -/

theorem lowerChar_ne_A (c : Char) : lowerChar c ≠ 'A' := by
  unfold lowerChar
  split <;> simp_all

/-- No lowered string equals `"eulerAngles"`, whose sixth character is an
upper-case `'A'`. -/
theorem lowerStr_ne_eulerAngles (s : String) : lowerStr s ≠ "eulerAngles" := by
  intro h
  have hd : "eulerAngles".data = s.data.map lowerChar := by
    rw [← h]; rfl
  have hm : 'A' ∈ s.data.map lowerChar := by
    rw [← hd]; decide
  obtain ⟨c, -, hc⟩ := List.mem_map.mp hm
  exact lowerChar_ne_A c hc

theorem scp_payload_propertyName (g ct pn : String) (value : PyValue) :
    paramOf (set_component_property_payload g ct pn value) "propertyName"
      = some (.atom (.pyStr (aliasPropertyName ct pn))) := rfl

theorem scp_payload_valueParam (g ct pn : String) (value : PyValue) :
    paramOf (set_component_property_payload g ct pn value) "value"
      = some (scpFormattedValue ct (aliasPropertyName ct pn) value) := rfl

/-! ### Claim theorems -/

/-- C3: for every tuple or list of at least three elements, `_format_vector3`
returns the first three elements' string forms joined with commas, in the
original order and with nothing but the two commas added; elements beyond the
third do not influence the result. -/
theorem format_vector3_seq_first_three (x0 x1 x2 : PyAtom) (rest : List PyAtom) :
    format_vector3 (.pyTuple (x0 :: x1 :: x2 :: rest))
        = pyStrAtom x0 ++ "," ++ pyStrAtom x1 ++ "," ++ pyStrAtom x2
    ∧ format_vector3 (.pyList (x0 :: x1 :: x2 :: rest))
        = pyStrAtom x0 ++ "," ++ pyStrAtom x1 ++ "," ++ pyStrAtom x2 :=
  ⟨rfl, rfl⟩

/-- C4: a string already matching the strict pattern
`^-?\d*\.?\d*,-?\d*\.?\d*,-?\d*\.?\d*$` (three comma-separated parts, each an
optional minus, digits, an optional dot, digits) passes through
`_format_vector3` unchanged. -/
theorem format_vector3_strict_identity (s : String) (h : strictCore s.data = true) :
    format_vector3 (.atom (.pyStr s)) = s := by
  have hm : reMatchXYZ s.data = true := by
    unfold reMatchXYZ
    rw [h]
    rfl
  simp [format_vector3, hm]

/-- Witness for C4 at the concrete input `"1,2.5,-3"`. -/
theorem format_vector3_strict_identity_witness :
    format_vector3 (.atom (.pyStr "1,2.5,-3")) = "1,2.5,-3" :=
  format_vector3_strict_identity "1,2.5,-3" (by decide)

/-- C5: for a string that does not match the strict pattern, `_format_vector3`
joins the first three numeric substrings (the matches of `-?\d+\.?\d*`, in
order of occurrence) with commas, discarding any further matches; when fewer
than three numeric substrings are found it returns the string itself
(`str(value)` of a string). -/
theorem format_vector3_loose_strings (s : String) (h : reMatchXYZ s.data = false) :
    (∀ m0 m1 m2 rest, findNums s.data = m0 :: m1 :: m2 :: rest →
      format_vector3 (.atom (.pyStr s)) = (⟨m0⟩ : String) ++ "," ++ ⟨m1⟩ ++ "," ++ ⟨m2⟩)
    ∧ ((findNums s.data).length < 3 → format_vector3 (.atom (.pyStr s)) = s) := by
  constructor
  · intro m0 m1 m2 rest hf
    simp [format_vector3, h, hf]
  · intro hlen
    rcases hf : findNums s.data with _ | ⟨a, _ | ⟨b, _ | ⟨c, rest⟩⟩⟩
    · simp [format_vector3, h, hf, pyStr, pyStrAtom]
    · simp [format_vector3, h, hf, pyStr, pyStrAtom]
    · simp [format_vector3, h, hf, pyStr, pyStrAtom]
    · rw [hf] at hlen
      simp at hlen
      omega

/-- Witness for C5: `"(10, 1, 10)"` is coerced to `"10,1,10"`, and `"(1, 2)"`
(only two numbers) falls back to itself. -/
theorem format_vector3_loose_strings_witness :
    format_vector3 (.atom (.pyStr "(10, 1, 10)")) = "10,1,10"
    ∧ format_vector3 (.atom (.pyStr "(1, 2)")) = "(1, 2)" :=
  ⟨(format_vector3_loose_strings "(10, 1, 10)" (by decide)).1
      "10".data "1".data "10".data [] (by decide),
    (format_vector3_loose_strings "(1, 2)" (by decide)).2 (by decide)⟩

/-- C6: `set_component_property` on component type `"Transform"` rewrites a
property name whose lower-casing is `"scale"` to `"localScale"` in the
envelope; for any component type other than `"Transform"` the property name
is sent exactly as given, whatever it is. -/
theorem scp_scale_alias (g ct pn : String) (value : PyValue) :
    (lowerStr pn = "scale" →
      paramOf (set_component_property_payload g "Transform" pn value) "propertyName"
        = some (.atom (.pyStr "localScale")))
    ∧ (ct ≠ "Transform" →
      paramOf (set_component_property_payload g ct pn value) "propertyName"
        = some (.atom (.pyStr pn))) := by
  constructor
  · intro h
    rw [scp_payload_propertyName]
    simp [aliasPropertyName, h]
  · intro h
    rw [scp_payload_propertyName]
    simp [aliasPropertyName, h]

/-- Witness for C6 at `"Scale"`, `"SCALE"`, `"scale"` on `"Transform"`, and a
non-`"Transform"` component type. -/
theorem scp_scale_alias_witness :
    paramOf (set_component_property_payload "Player" "Transform" "Scale"
        (.atom (.pyStr "1,2,3"))) "propertyName" = some (.atom (.pyStr "localScale"))
    ∧ paramOf (set_component_property_payload "Player" "Transform" "SCALE"
        (.atom (.pyStr "1,2,3"))) "propertyName" = some (.atom (.pyStr "localScale"))
    ∧ paramOf (set_component_property_payload "Player" "Transform" "scale"
        (.atom (.pyStr "1,2,3"))) "propertyName" = some (.atom (.pyStr "localScale"))
    ∧ paramOf (set_component_property_payload "Player" "Rigidbody" "scale"
        (.atom (.pyStr "1,2,3"))) "propertyName" = some (.atom (.pyStr "scale")) :=
  ⟨(scp_scale_alias "Player" "Transform" "Scale" (.atom (.pyStr "1,2,3"))).1 (by decide),
    (scp_scale_alias "Player" "Transform" "SCALE" (.atom (.pyStr "1,2,3"))).1 (by decide),
    (scp_scale_alias "Player" "Transform" "scale" (.atom (.pyStr "1,2,3"))).1 (by decide),
    (scp_scale_alias "Player" "Rigidbody" "scale" (.atom (.pyStr "1,2,3"))).2 (by decide)⟩

/-- C9: for a string value, the envelope's `value` parameter is the
`_format_vector3` coercion of the string exactly when the component type is
`"Transform"` and the lower-casing of the (aliased) transmitted property name
is one of `"position"`, `"localscale"`, `"rotation"`; otherwise the string is
transmitted unchanged. In particular a `"Transform"` property named
`"eulerAngles"` in any letter case is transmitted unchanged, because the
membership test compares the lowered name against the literal
`"eulerAngles"`, which no lowered string can equal. -/
theorem scp_vector3_condition (g ct pn v : String) :
    (paramOf (set_component_property_payload g ct pn (.atom (.pyStr v))) "value"
      = some (.atom (.pyStr
          (if ct = "Transform" ∧
              lowerStr (aliasPropertyName ct pn) ∈ ["position", "localscale", "rotation"] then
            format_vector3 (.atom (.pyStr v))
          else v))))
    ∧ (lowerStr pn = "eulerangles" →
      paramOf (set_component_property_payload g "Transform" pn (.atom (.pyStr v))) "value"
        = some (.atom (.pyStr v))) := by
  constructor
  · rw [scp_payload_valueParam]
    by_cases hc : ct = "Transform" ∧
        lowerStr (aliasPropertyName ct pn) ∈ (["position", "localscale", "rotation"] : List String)
    · have hc4 : ct = "Transform" ∧ lowerStr (aliasPropertyName ct pn) ∈
          (["position", "localscale", "rotation", "eulerAngles"] : List String) := by
        refine ⟨hc.1, ?_⟩
        have := hc.2
        simp only [List.mem_cons, List.not_mem_nil, or_false] at this ⊢
        tauto
      unfold scpFormattedValue
      rw [if_pos hc4, if_pos hc]
    · have hc4 : ¬(ct = "Transform" ∧ lowerStr (aliasPropertyName ct pn) ∈
          (["position", "localscale", "rotation", "eulerAngles"] : List String)) := by
        rintro ⟨h1, h2⟩
        apply hc
        refine ⟨h1, ?_⟩
        simp only [List.mem_cons, List.not_mem_nil, or_false] at h2 ⊢
        rcases h2 with h | h | h | h
        · tauto
        · tauto
        · tauto
        · exact absurd h (lowerStr_ne_eulerAngles _)
      unfold scpFormattedValue
      rw [if_neg hc4, if_neg hc]
  · intro h
    have hns : ¬("Transform" = "Transform" ∧ lowerStr pn = "scale") := by
      rintro ⟨-, h2⟩
      rw [h2] at h
      exact absurd h (by decide)
    have ha : aliasPropertyName "Transform" pn = pn := by
      unfold aliasPropertyName
      rw [if_neg hns]
    rw [scp_payload_valueParam, ha]
    have hc4 : ¬("Transform" = "Transform" ∧ lowerStr pn ∈
        (["position", "localscale", "rotation", "eulerAngles"] : List String)) := by
      rintro ⟨-, h2⟩
      rw [h] at h2
      exact absurd h2 (by decide)
    unfold scpFormattedValue
    rw [if_neg hc4]

/-- Witness for C9: a `"Transform"` `"position"` string is coerced, while
`"EulerAngles"` (mixed case) passes through verbatim. -/
theorem scp_vector3_condition_witness :
    paramOf (set_component_property_payload "Player" "Transform" "position"
        (.atom (.pyStr "(1, 2, 3)"))) "value" = some (.atom (.pyStr "1,2,3"))
    ∧ paramOf (set_component_property_payload "Player" "Transform" "EulerAngles"
        (.atom (.pyStr "(1, 2, 3)"))) "value" = some (.atom (.pyStr "(1, 2, 3)")) :=
  ⟨(scp_vector3_condition "Player" "Transform" "position" "(1, 2, 3)").1.trans (by decide),
    (scp_vector3_condition "Player" "Transform" "EulerAngles" "(1, 2, 3)").2 (by decide)⟩

/-- C10: the `create_gameobject` envelope's parameter keys are exactly
`objectName` plus `parentName`, the latter present precisely when the
`parent_name` argument is truthy; `None` and `""` both yield an envelope with
only `objectName`. -/
theorem create_gameobject_parent_key (object_name : String) (parent_name : Option String) :
    ((create_gameobject_payload object_name parent_name).parameters.map (fun kv => kv.1)
      = if pyTruthyStrOpt parent_name then ["objectName", "parentName"] else ["objectName"])
    ∧ (("parentName" ∈ (create_gameobject_payload object_name parent_name).parameters.map
          (fun kv => kv.1))
        ↔ pyTruthyStrOpt parent_name = true) := by
  cases parent_name with
  | none => simp [create_gameobject_payload, pyTruthyStrOpt]
  | some p =>
    by_cases hp : p = ""
    · simp [create_gameobject_payload, pyTruthyStrOpt, hp]
    · simp [create_gameobject_payload, pyTruthyStrOpt, hp]

theorem head_dropWhile_not (p : Char → Bool) :
    ∀ (l : List Char) (a : Char), (l.dropWhile p).head? = some a → p a = false := by
  intro l
  induction l with
  | nil => intro a ha; simp [List.dropWhile] at ha
  | cons c cs ih =>
    intro a ha
    rw [List.dropWhile_cons] at ha
    by_cases hc : p c = true
    · rw [if_pos hc] at ha
      exact ih a ha
    · rw [if_neg hc] at ha
      simp at ha
      rw [← ha]
      exact Bool.not_eq_true (p c) |>.mp hc

/-- C8: the endpoint is fixed at construction. `__init__` stores the base URL
with every trailing `'/'` removed (the stored host does not end in `'/'`, and
the original string is the stored host plus some run of slashes), and no
public operation changes the client object: after any call the client equals
the client before it. -/
theorem endpoint_fixed (h : String) :
    (((UnityMCP.init h).host.data.getLast? == some '/') = false)
    ∧ (∃ k, (UnityMCP.init h).host.data ++ List.replicate k '/' = h.data)
    ∧ (∀ (c : UnityMCP) (env : Env) (g ct pn sn sc tag pp : String)
        (pr fp : Option String) (v : PyValue),
        (c.create_gameobject env g pr).client = c
        ∧ (c.get_all_scenes env).client = c
        ∧ (c.get_all_prefabs env).client = c
        ∧ (c.get_all_gameobjects_in_scene env).client = c
        ∧ (c.add_component_to_gameobject env g ct).client = c
        ∧ (c.create_script_asset env sn sc fp).client = c
        ∧ (c.set_component_property env g ct pn v).client = c
        ∧ (c.instantiate_prefab env pp).client = c
        ∧ (c.find_gameobjects_by_tag env tag).client = c
        ∧ (c.get_all_components env g).client = c
        ∧ (c.remove_component env g ct).client = c
        ∧ (c.delete_gameobject env g).client = c) := by
  refine ⟨?_, ?_, ?_⟩
  · show (((h.data.reverse.dropWhile (fun c => c == '/')).reverse.getLast? == some '/') = false)
    rw [List.getLast?_reverse]
    rcases hh : (h.data.reverse.dropWhile (fun c => c == '/')).head? with _ | a
    · rfl
    · have hpa := head_dropWhile_not (fun c => c == '/') h.data.reverse a hh
      simp at hpa ⊢
      exact hpa
  · refine ⟨(h.data.reverse.takeWhile (fun c => c == '/')).length, ?_⟩
    have ht : h.data.reverse.takeWhile (fun c => c == '/')
        = List.replicate (h.data.reverse.takeWhile (fun c => c == '/')).length '/' := by
      apply List.eq_replicate_of_mem
      intro b hb
      have := List.mem_takeWhile_imp hb
      simpa using this
    show (h.data.reverse.dropWhile (fun c => c == '/')).reverse ++ _ = h.data
    rw [← List.reverse_replicate, ← ht, ← List.reverse_append,
      List.takeWhile_append_dropWhile, List.reverse_reverse]
  · intro c env g ct pn sn sc tag pp pr fp v
    refine ⟨rfl, rfl, rfl, rfl, ?_, rfl, rfl, rfl, rfl, rfl, rfl, rfl⟩
    unfold UnityMCP.add_component_to_gameobject
    dsimp only
    repeat' split
    all_goals rfl

theorem send_request_empty_body {env : Env} {s : Nat} (c : UnityMCP)
    (h2 : 200 ≤ s) (h3 : s < 300)
    (h : ∀ u p, env.http u p = .success { status := s, text := "" }) (p : Payload) :
    c.send_request env p = .ok (.jObj []) := by
  unfold UnityMCP.send_request
  dsimp only
  rw [h]
  dsimp only
  rw [if_neg (by omega : ¬(400 ≤ s ∧ s < 600))]
  rfl

/-- C7: when every POST yields a 2xx status with an empty body, every public
operation returns the empty mapping `{}` rather than raising. -/
theorem empty_2xx_body_gives_empty_dict (c : UnityMCP) (env : Env) (s : Nat)
    (h2 : 200 ≤ s) (h3 : s < 300)
    (h : ∀ u p, env.http u p = .success { status := s, text := "" }) :
    (∀ g pr, (c.create_gameobject env g pr).result = .ok (.jObj []))
    ∧ ((c.get_all_scenes env).result = .ok (.jObj []))
    ∧ ((c.get_all_prefabs env).result = .ok (.jObj []))
    ∧ ((c.get_all_gameobjects_in_scene env).result = .ok (.jObj []))
    ∧ (∀ g t, (c.add_component_to_gameobject env g t).result = .ok (.jObj []))
    ∧ (∀ sn sc fp, (c.create_script_asset env sn sc fp).result = .ok (.jObj []))
    ∧ (∀ g ct pn v, (c.set_component_property env g ct pn v).result = .ok (.jObj []))
    ∧ (∀ pp, (c.instantiate_prefab env pp).result = .ok (.jObj []))
    ∧ (∀ tag, (c.find_gameobjects_by_tag env tag).result = .ok (.jObj []))
    ∧ (∀ g, (c.get_all_components env g).result = .ok (.jObj []))
    ∧ (∀ g cn, (c.remove_component env g cn).result = .ok (.jObj []))
    ∧ (∀ g, (c.delete_gameobject env g).result = .ok (.jObj [])) := by
  have hs := fun p => send_request_empty_body c h2 h3 h p
  refine ⟨fun g pr => hs _, hs _, hs _, hs _, ?_, fun sn sc fp => hs _,
    fun g ct pn v => hs _, fun pp => hs _, fun tag => hs _, fun g => hs _,
    fun g cn => hs _, fun g => hs _⟩
  intro g t
  unfold UnityMCP.add_component_to_gameobject
  dsimp only
  by_cases hm : pyEndsWith t "Mesh" = true
  · rw [if_pos hm, hs (add_component_payload g "MeshFilter")]
    rfl
  · rw [if_neg hm]
    exact hs _

/-- Witness for C7: with 200-status empty-body responses, `create_gameobject`
and the composite mesh operation both return `{}`. -/
theorem empty_2xx_body_gives_empty_dict_witness :
    ((UnityMCP.init "http://127.0.0.1:8080").create_gameobject envEmptyOk "Player" none).result
      = .ok (.jObj [])
    ∧ ((UnityMCP.init "http://127.0.0.1:8080").add_component_to_gameobject envEmptyOk
        "Player" "CubeMesh").result = .ok (.jObj []) :=
  ⟨(empty_2xx_body_gives_empty_dict (UnityMCP.init "http://127.0.0.1:8080") envEmptyOk 200
      (by decide) (by decide) (fun _ _ => rfl)).1 "Player" none,
    (empty_2xx_body_gives_empty_dict (UnityMCP.init "http://127.0.0.1:8080") envEmptyOk 200
      (by decide) (by decide) (fun _ _ => rfl)).2.2.2.2.1 "Player" "CubeMesh"⟩

/-- C1: for a component type name ending in `"Mesh"`,
`add_component_to_gameobject` first states what the third envelope is (a
`set_component_property` of `MeshFilter`'s `"mesh"` property to the constant
prefix followed by the suffix-stripped, lowercased type name, transmitted
verbatim), and then: given the `MeshFilter` step's decoded response and its
`success` field, if that field is not truthy the call stops after the one
envelope and returns that response unchanged; if it is truthy, the
`MeshRenderer` envelope follows, with the same short-circuit; and when both
succeed the three envelopes go out in order and the third step's outcome is
returned. -/
theorem mesh_composite (c : UnityMCP) (env : Env) (g ctn : String)
    (hm : pyEndsWith ctn "Mesh" = true) :
    (set_component_property_payload g "MeshFilter" "mesh"
        (.atom (.pyStr ("UnityEngine.Mesh, UnityEngine.CoreModule:UnityEngine."
          ++ lowerStr (sliceDropLast4 ctn))))
      = { command := "set_component_property",
          parameters := [("gameObjectName", .atom (.pyStr g)),
                         ("componentType", .atom (.pyStr "MeshFilter")),
                         ("propertyName", .atom (.pyStr "mesh")),
                         ("value", .atom (.pyStr ("UnityEngine.Mesh, UnityEngine.CoreModule:UnityEngine."
                           ++ lowerStr (sliceDropLast4 ctn))))] })
    ∧ ∀ r1 s1, c.send_request env (add_component_payload g "MeshFilter") = .ok r1 →
      r1.get "success" = .ok s1 →
      ((truthyOpt s1 = false →
        c.add_component_to_gameobject env g ctn
          = { result := .ok r1, client := c, sent := [add_component_payload g "MeshFilter"] })
      ∧ (truthyOpt s1 = true →
        ∀ r2 s2, c.send_request env (add_component_payload g "MeshRenderer") = .ok r2 →
          r2.get "success" = .ok s2 →
          ((truthyOpt s2 = false →
            c.add_component_to_gameobject env g ctn
              = { result := .ok r2, client := c,
                  sent := [add_component_payload g "MeshFilter",
                           add_component_payload g "MeshRenderer"] })
          ∧ (truthyOpt s2 = true →
            c.add_component_to_gameobject env g ctn
              = { result := c.send_request env (set_component_property_payload g "MeshFilter"
                    "mesh" (.atom (.pyStr ("UnityEngine.Mesh, UnityEngine.CoreModule:UnityEngine."
                      ++ lowerStr (sliceDropLast4 ctn))))),
                  client := c,
                  sent := [add_component_payload g "MeshFilter",
                           add_component_payload g "MeshRenderer",
                           set_component_property_payload g "MeshFilter" "mesh"
                             (.atom (.pyStr ("UnityEngine.Mesh, UnityEngine.CoreModule:UnityEngine."
                               ++ lowerStr (sliceDropLast4 ctn))))] })))) := by
  refine ⟨rfl, ?_⟩
  intro r1 s1 h1 hs1
  constructor
  · intro ht1
    unfold UnityMCP.add_component_to_gameobject
    dsimp only
    rw [if_pos hm, h1]
    dsimp only
    rw [hs1]
    dsimp only
    rw [ht1]
    rfl
  · intro ht1
    intro r2 s2 h2 hs2
    constructor
    · intro ht2
      unfold UnityMCP.add_component_to_gameobject
      dsimp only
      rw [if_pos hm, h1]
      dsimp only
      rw [hs1]
      dsimp only
      rw [ht1, if_pos rfl, h2]
      dsimp only
      rw [hs2]
      dsimp only
      rw [ht2]
      rfl
    · intro ht2
      unfold UnityMCP.add_component_to_gameobject
      dsimp only
      rw [if_pos hm, h1]
      dsimp only
      rw [hs1]
      dsimp only
      rw [ht1, if_pos rfl, h2]
      dsimp only
      rw [hs2]
      dsimp only
      rw [ht2, if_pos rfl]
      rfl

/-- Witness for C1: with a transport where every step succeeds,
`add_component_to_gameobject "Player" "CubeMesh"` sends exactly the
`MeshFilter`, `MeshRenderer` and `MeshFilter.mesh = ...cube` envelopes in
order; with a transport whose `MeshFilter` step reports failure, it sends
only the first envelope and returns that failure response unchanged. -/
theorem mesh_composite_witness :
    (UnityMCP.init "http://127.0.0.1:8080").add_component_to_gameobject envAllOk "Player" "CubeMesh"
      = { result := .ok (.jObj [("success", .jBool true)]),
          client := UnityMCP.init "http://127.0.0.1:8080",
          sent := [add_component_payload "Player" "MeshFilter",
                   add_component_payload "Player" "MeshRenderer",
                   set_component_property_payload "Player" "MeshFilter" "mesh"
                     (.atom (.pyStr "UnityEngine.Mesh, UnityEngine.CoreModule:UnityEngine.cube"))] }
    ∧ (UnityMCP.init "http://127.0.0.1:8080").add_component_to_gameobject envMeshFilterFails
        "Player" "CubeMesh"
      = { result := .ok (.jObj [("success", .jBool false), ("error", .jStr "add failed")]),
          client := UnityMCP.init "http://127.0.0.1:8080",
          sent := [add_component_payload "Player" "MeshFilter"] } := by
  constructor
  · have h := (((mesh_composite (UnityMCP.init "http://127.0.0.1:8080") envAllOk "Player"
      "CubeMesh" (by decide)).2 (.jObj [("success", .jBool true)]) (some (.jBool true))
      rfl rfl).2 rfl (.jObj [("success", .jBool true)]) (some (.jBool true)) rfl rfl).2 rfl
    rw [h]
    rfl
  · have h := (((mesh_composite (UnityMCP.init "http://127.0.0.1:8080") envMeshFilterFails
      "Player" "CubeMesh" (by decide)).2
      (.jObj [("success", .jBool false), ("error", .jStr "add failed")])
      (some (.jBool false)) rfl rfl).1) rfl
    rw [h]

/-- C2 (divergence witness): the specification — like the source's own inline
comment — says any non-2xx HTTP status raises the uniform failure, but
`resp.raise_for_status()` raises only for statuses 400–599. A `304 Not
Modified` response (not a 2xx, and not one of the redirect codes the
transport follows) is therefore returned as a normal value: with an empty
body, `get_all_scenes` returns `{}` instead of raising. -/
theorem send_request_304_returns_value :
    ((UnityMCP.init "http://127.0.0.1:8080").get_all_scenes env304).result = .ok (.jObj [])
    ∧ decide (200 ≤ 304 ∧ 304 < 300) = false := ⟨rfl, rfl⟩
